import Mathlib

/-!
Shallow embedding of the s2-downloader repository (src/utils.py and its use
by the two toolbox entry actions) and verification of the frozen claims.

Modelling conventions:
* Python/JSON values that flow through the `.get(k, default)` chains of
  `search_stac` and into `get_data` are modelled by the inductive type `J`.
  Python `None` (JSON null) is `J.null`; the `{}` default that `.get`
  substitutes for a missing key is `J.jobj []`.
* Exceptions are modelled by `Except PyErr`; the helper `try/except` wrapper
  that logs via `arcpy.AddError` and re-raises is modelled explicitly.
* The world state `WState` records the files written, the log produced via
  `arcpy.AddMessage` / `arcpy.AddError`, and the network-touching events
  (each `gdal.OpenEx` of a URL, each metadata `session.get`).
* External capability providers (the GDAL raster open, the HTTP server, the
  reprojection engine) are oracles bundled in `Env` / `SEnv` / `GeoEnv`.
* Numeric coordinates are modelled by `Rat` (exact arithmetic); machine
  float rounding is abstracted away.
-/

namespace S2DL

/-- A Python/JSON value as manipulated by `utils.py`.  `null` is Python
`None`; the `{}` default of `dict.get` is `jobj []`. -/
inductive J where
  | null : J
  | jstr : String → J
  | jint : Int → J
  | jarr : List J → J
  | jobj : List (String × J) → J

instance : Inhabited J := ⟨J.null⟩

/-- Python exception classes relevant to the embedded code. -/
inductive PyErr where
  | typeError : String → PyErr
  | attributeError : String → PyErr
  | requestError : String → PyErr
  deriving DecidableEq

/-- First-match association lookup, as for keys of a Python dict literal
with distinct keys. -/
def jlookup : List (String × J) → String → Option J
  | [], _ => none
  | (k, v) :: rest, key => if k = key then some v else jlookup rest key

/-- The call `j.get key` models Python `j.get(key, {})`: on a dict it returns the
value, defaulting to `{}`; on anything else `.get` does not exist and an
`AttributeError` is raised. -/
def J.get (j : J) (key : String) : Except PyErr J :=
  match j with
  | .jobj kvs => .ok ((jlookup kvs key).getD (.jobj []))
  | _ => .error (.attributeError "get")

/-- Python `int(j)`: ints pass through, numeric strings parse, everything
else raises. -/
def J.toInt (j : J) : Except PyErr Int :=
  match j with
  | .jint n => .ok n
  | .jstr s =>
      match s.toInt? with
      | some n => .ok n
      | none => .error (.typeError "int")
  | _ => .error (.typeError "int")

/-- Python `for x in j`: lists yield their elements, dicts their keys,
strings their characters; ints and `None` are not iterable. -/
def J.iterElems (j : J) : Except PyErr (List J) :=
  match j with
  | .jarr xs => .ok xs
  | .jobj kvs => .ok (kvs.map (fun kv => J.jstr kv.1))
  | .jstr s => .ok (s.toList.map (fun c => J.jstr (String.singleton c)))
  | _ => .error (.typeError "iter")

/-- Python `j == s` for a string literal `s`: true exactly when `j` is that
string (`{} == "next"` is `False`). -/
def J.eqStr (j : J) (s : String) : Bool :=
  match j with
  | .jstr t => t = s
  | _ => false

/-- Python `str(j)` as used by f-string interpolation.  Only the scalar cases ever
carry claim-relevant text; container rendering is abbreviated. -/
def J.fmt (j : J) : String :=
  match j with
  | .null => "None"
  | .jstr s => s
  | .jint n => toString n
  | .jarr _ => "[...]"
  | .jobj _ => "\x7b...\x7d"

/-- Last index of character `c` in `cs`, or `-1` when absent
(Python `str.rfind`). -/
def lastIdx (cs : List Char) (c : Char) : Int :=
  (List.range cs.length).foldl
    (fun acc i => if cs.getD i ' ' = c then (i : Int) else acc) (-1)

/-- CPython `os.path.splitext` on a string path (CPython `genericpath._splitext`
with separators `/` and `\`): split at the last dot that lies after the
last separator, unless every character between the separator and that dot
is itself a dot. -/
def splitext (p : String) : String × String :=
  let cs := p.toList
  let sepIndex := max (lastIdx cs '/') (lastIdx cs '\\')
  let dotIndex := lastIdx cs '.'
  if dotIndex > sepIndex then
    let hasNonDot := (List.range cs.length).any
      (fun i => sepIndex < (i : Int) && (i : Int) < dotIndex && cs.getD i '.' ≠ '.')
    if hasNonDot then
      (String.mk (cs.take dotIndex.toNat), String.mk (cs.drop dotIndex.toNat))
    else (p, "")
  else (p, "")

/-- Model of `os.path.join` for the paths this tool builds (a directory and a plain
file name). -/
def pjoin (a b : String) : String := a ++ "/" ++ b

/-- Python `s.startswith(pre)`. -/
def startsWithL (s pre : String) : Bool := pre.toList.isPrefixOf s.toList

/-- One entry of the host message channel: `arcpy.AddMessage` or
`arcpy.AddError`. -/
inductive LogEntry where
  | message : String → LogEntry
  | error : String → LogEntry
  deriving DecidableEq

/-- The observable world state threaded through the retrieval code:
files on disk (path, content), the message log, and the network-touching
events (`gdal.OpenEx` URLs, metadata `session.get` URLs). -/
structure WState where
  fs : List (String × String)
  log : List LogEntry
  gdalOpens : List String
  httpGets : List String

/-- Model of `os.path.exists`. -/
def fsExists (fs : List (String × String)) (path : String) : Bool :=
  fs.any (fun pc => pc.1 = path)

/-- Write (create or truncate-and-overwrite) a file. -/
def fsWrite : List (String × String) → String → String → List (String × String)
  | [], path, content => [(path, content)]
  | (p, c) :: rest, path, content =>
      if p = path then (p, content) :: rest else (p, c) :: fsWrite rest path content

def addMsg (st : WState) (s : String) : WState :=
  { st with log := st.log ++ [LogEntry.message s] }

def addErr (st : WState) (s : String) : WState :=
  { st with log := st.log ++ [LogEntry.error s] }

def putFile (st : WState) (path content : String) : WState :=
  { st with fs := fsWrite st.fs path content }

/-- External capability oracles for the retrieval engine: whether
`gdal.OpenEx` yields a dataset for a URL, and what `session.get` on a
metadata URL produces (`.error` models a raised
`requests` exception; `.ok (status, text)` a response). -/
structure Env where
  gdalOpen : String → Bool
  httpGet : String → Except PyErr (Nat × String)

/-- One record of `scene_info["scenes"]` as built by `search_stac`
(a dict whose values are arbitrary JSON values). -/
structure SceneInfo where
  scene_datetime : J
  scene_id : J
  scene_uri : J
  ql_url : J
  vis_url : J
  mtd_url : J
  cloud_cover : J
  epsg_code : J
  bbox : J

instance : Inhabited SceneInfo :=
  ⟨⟨J.null, J.null, J.null, J.null, J.null, J.null, J.null, J.null, J.null⟩⟩

/-- The f-string `f"{file_prefix}_{scene_id}_{file_suffix}{file_ext}"`. -/
def fnameOf (pfx sid sfx ext : String) : String :=
  pfx ++ "_" ++ sid ++ "_" ++ sfx ++ ext

/-- Body of `get_fname_from_url` (inside its `try`):
`os.path.splitext(file_url)[1]` raises a `TypeError` unless `file_url` is a
string; the name is `f"{file_prefix}_{scene_id}_{file_suffix}{file_ext}"`. -/
def get_fname_from_url_body (scene_id : J) (file_url : J)
    (file_pfx file_suffix : String) : Except PyErr String :=
  match file_url with
  | .jstr u => .ok (fnameOf file_pfx scene_id.fmt file_suffix (splitext u).2)
  | _ => .error (.typeError "splitext expected str")

/-- Function `get_fname_from_url` with its `try/except`: on failure, log an error
through the host channel and re-raise. -/
def get_fname_from_url (scene_id : J) (file_url : J)
    (file_pfx file_suffix : String) (st : WState) : WState × Except PyErr String :=
  match get_fname_from_url_body scene_id file_url file_pfx file_suffix with
  | .ok f => (st, .ok f)
  | .error e =>
      (addErr st ("Error getting filename for " ++ scene_id.fmt ++ ": traceback"), .error e)

/-- Body of `download_img` (inside its `try`): skip when the output exists;
skip with a warning when the URL is `None`; otherwise prepend `/vsicurl/`
(raising `AttributeError` when the URL is not a string), open via GDAL
(returning with an error message when the open yields no dataset),
translate to the scratch VRT and clip to the output raster. -/
def download_img_body (env : Env) (scene_id : J) (in_url : J) (in_lyr : String)
    (out_file : String) (st : WState) : WState × Except PyErr Unit :=
  if fsExists st.fs out_file then
    (addMsg st ("Image for " ++ scene_id.fmt ++ " already exists at " ++ out_file), .ok ())
  else
    match in_url with
    | .null =>
        (addMsg st ("Warning: Image for " ++ scene_id.fmt ++ " is not available."), .ok ())
    | .jstr u =>
        let cog_url := if startsWithL u "/vsicurl/" then u else "/vsicurl/" ++ u
        let st := { st with gdalOpens := st.gdalOpens ++ [cog_url] }
        if env.gdalOpen cog_url then
          let st := putFile st in_lyr "vrt-data"
          let st := putFile st out_file "raster-data"
          (addMsg st ("saved image for " ++ scene_id.fmt ++ " in " ++ out_file), .ok ())
        else
          (addErr st ("Failed to open dataset for " ++ scene_id.fmt), .ok ())
    | _ => (st, .error (.attributeError "startswith"))

/-- Function `download_img` with its `try/except`: on an exception, log an error and
re-raise. -/
def download_img (env : Env) (scene_id : J) (in_url : J) (in_lyr : String)
    (out_file : String) (st : WState) : WState × Except PyErr Unit :=
  match download_img_body env scene_id in_url in_lyr out_file st with
  | (st, .ok ()) => (st, .ok ())
  | (st, .error e) =>
      (addErr st ("Error downloading image for " ++ scene_id.fmt ++ ": traceback"), .error e)

/-- Body of `download_mtd` (inside its `try`): skip when the output exists;
skip with a warning when the URL is `None`; otherwise `open(out_file, "w")`
creates/truncates the file BEFORE the GET, then the response text is
written only when the status is 200 (a non-200 status leaves the file
empty and returns normally; a raised request exception propagates with the
empty file already on disk). -/
def download_mtd_body (env : Env) (scene_id : J) (in_url : J)
    (out_file : String) (st : WState) : WState × Except PyErr Unit :=
  if fsExists st.fs out_file then
    (addMsg st ("metadata for " ++ scene_id.fmt ++ " exists in " ++ out_file), .ok ())
  else
    match in_url with
    | .null =>
        (addMsg st ("WARNING metadata for " ++ scene_id.fmt ++ " is not available"), .ok ())
    | .jstr u =>
        let st := putFile st out_file ""
        let st := { st with httpGets := st.httpGets ++ [u] }
        match env.httpGet u with
        | .error e => (st, .error e)
        | .ok (status, text) =>
            if status = 200 then
              (addMsg (putFile st out_file text)
                ("saved metadata for " ++ scene_id.fmt ++ " in " ++ out_file), .ok ())
            else (st, .ok ())
    | _ =>
        let st := putFile st out_file ""
        (st, .error (.requestError "invalid url"))

/-- Function `download_mtd` with its `try/except`. -/
def download_mtd (env : Env) (scene_id : J) (in_url : J)
    (out_file : String) (st : WState) : WState × Except PyErr Unit :=
  match download_mtd_body env scene_id in_url out_file st with
  | (st, .ok ()) => (st, .ok ())
  | (st, .error e) =>
      (addErr st ("Error downloading metadata for " ++ scene_id.fmt ++ ": traceback"), .error e)

/-- Model of `arcpy.SpatialReference(epsg_code)` as used by `get_data`: valid for an
integer EPSG code, raising otherwise (e.g. on the `{}` sentinel).  The
subsequent `projectAs` is an opaque capability of the host and is assumed
to succeed. -/
def mkSpatialRef (epsg : J) : Except PyErr Int :=
  match epsg with
  | .jint n => .ok n
  | _ => .error (.typeError "SpatialReference")

/-- The per-scene body of the `get_data` loop: compute both file names, the
scratch VRT name and the joined paths, build the scene spatial reference
and reproject the clip polygon, then download the image and the
metadata. -/
def process_scene (env : Env) (item : SceneInfo) (out_pfx out_dir temp_dir : String)
    (st : WState) : WState × Except PyErr Unit :=
  match get_fname_from_url item.scene_id item.vis_url out_pfx "TCI" st with
  | (st, .error e) => (st, .error e)
  | (st, .ok vis_fname) =>
    match get_fname_from_url item.scene_id item.mtd_url out_pfx "metadata" st with
    | (st, .error e) => (st, .error e)
    | (st, .ok mtd_fname) =>
      let vrt_fname := item.scene_id.fmt ++ "_TCI.vrt"
      let vis_file := pjoin out_dir vis_fname
      let mtd_file := pjoin out_dir mtd_fname
      let vrt_lyr := pjoin temp_dir vrt_fname
      match mkSpatialRef item.epsg_code with
      | .error e => (st, .error e)
      | .ok _ =>
        match download_img env item.scene_id item.vis_url vrt_lyr vis_file st with
        | (st, .error e) => (st, .error e)
        | (st, .ok ()) => download_mtd env item.scene_id item.mtd_url mtd_file st

/-- The loop of `get_data` over `scene_info["scenes"]`, carrying the
running `count_download` and the fixed `total_download`. -/
def get_data_loop (env : Env) (scenes : List SceneInfo) (out_pfx out_dir temp_dir : String)
    (count_download total_download : Nat) (st : WState) : WState × Except PyErr Unit :=
  match scenes with
  | [] => (st, .ok ())
  | item :: rest =>
      match process_scene env item out_pfx out_dir temp_dir st with
      | (st, .error e) => (st, .error e)
      | (st, .ok ()) =>
          let count := count_download + 1
          let st := addMsg st ("downloaded " ++ toString count ++ " of "
            ++ toString total_download ++ " images")
          get_data_loop env rest out_pfx out_dir temp_dir count total_download st

/-- Function `get_data` with its `try/except`: run the loop over the scene list
(`scene_info.get("scenes", {})`); on an exception, log an error and
re-raise. -/
def get_data (env : Env) (scenes : List SceneInfo) (out_pfx out_dir temp_dir : String)
    (st : WState) : WState × Except PyErr Unit :=
  match get_data_loop env scenes out_pfx out_dir temp_dir 0 scenes.length st with
  | (st, .ok ()) => (st, .ok ())
  | (st, .error e) => (addErr st "Error getting data: traceback", .error e)

/-! ## STAC client (`search_stac`) -/

/-- The query parameters of the first pagination request. -/
structure SParams where
  bbox : String
  datetime : String
  collections : List String
  limit : Nat
  sortby : String
  deriving DecidableEq

/-- One HTTP GET issued by the pagination loop: the URL and, for the first
request only, the query parameters. -/
structure SReq where
  url : String
  params : Option SParams
  deriving DecidableEq

/-- One HTTP response from the catalog: a status code and a JSON body. -/
structure SResp where
  status : Nat
  body : J

/-- The catalog server as an oracle from request to response. -/
structure SEnv where
  server : SReq → SResp

/-- Outcome of `search_stac`:
`done` models a normal return (loop condition reached or `break` on a
non-200 status); `raised` models an exception escaping the loop;
`spin` means the pagination loop was still running when the modelling
fuel ran out (the Python loop has no bound of its own). -/
inductive SearchOut where
  | done : List SceneInfo → List LogEntry → List SReq → SearchOut
  | raised : PyErr → List LogEntry → List SReq → SearchOut
  | spin : List SceneInfo → List LogEntry → List SReq → SearchOut

/-- One `sc_info` record built from a feature, following the `.get` chains
of the source line by line. -/
def mk_sc_info (feature : J) : Except PyErr SceneInfo := do
  let props ← feature.get "properties"
  let scene_datetime ← props.get "datetime"
  let scene_id ← feature.get "id"
  let props2 ← feature.get "properties"
  let scene_uri ← props2.get "s2:product_uri"
  let assets ← feature.get "assets"
  let thumb ← assets.get "thumbnail"
  let ql_url ← thumb.get "href"
  let assets2 ← feature.get "assets"
  let visual ← assets2.get "visual"
  let vis_url ← visual.get "href"
  let assets3 ← feature.get "assets"
  let granule ← assets3.get "granule_metadata"
  let mtd_url ← granule.get "href"
  let props3 ← feature.get "properties"
  let cloud_cover ← props3.get "eo:cloud_cover"
  let props4 ← feature.get "properties"
  let epsg_code ← props4.get "proj:epsg"
  let bbox ← feature.get "bbox"
  return ⟨scene_datetime, scene_id, scene_uri, ql_url, vis_url, mtd_url,
          cloud_cover, epsg_code, bbox⟩

/-- The loop `for feature in features: scene_info["scenes"].append(sc_info)`. -/
def mapFeatures : List J → List SceneInfo → Except PyErr (List SceneInfo)
  | [], acc => .ok acc
  | f :: rest, acc =>
      match mk_sc_info f with
      | .error e => .error e
      | .ok sc => mapFeatures rest (acc ++ [sc])

/-- The loop `for link in links: if link.get("rel", {}) == "next": url = link.get("href", {})`. -/
def updateUrl : List J → J → Except PyErr J
  | [], url => .ok url
  | link :: rest, url =>
      match link.get "rel" with
      | .error e => .error e
      | .ok rel =>
          if rel.eqStr "next" then
            match link.get "href" with
            | .error e => .error e
            | .ok href => updateUrl rest href
          else updateUrl rest url

/-- The `AddMessage` text logged for each successful page. -/
def pageMsg (matched returned : Int) : String :=
  "limit : 50, matched : " ++ toString matched ++ ", returned : " ++ toString returned ++ ")"

/-- The `while returned != 0` pagination loop of `search_stac`, made total
with fuel.  `url` is the Python variable reassigned from the `next` link
(hence a `J`, not a `String`); `params0` is the query-parameter dict, sent
only when `request_count == 1`; requests raise when the current `url` is
not a string.  The accumulated request trace `reqs` is observational. -/
def search_stac_loop (env : SEnv) (params0 : SParams) : Nat → J → Nat →
    List SceneInfo → List LogEntry → List SReq → Int → SearchOut
  | fuel, url, request_count, scenes, log, reqs, returned =>
    if returned = 0 then .done scenes log reqs
    else
      match fuel with
      | 0 => .spin scenes log reqs
      | fuel + 1 =>
        match url with
        | .jstr u =>
          let req : SReq := ⟨u, if request_count = 1 then some params0 else none⟩
          let reqs := reqs ++ [req]
          let resp := env.server req
          if resp.status ≠ 200 then
            .done scenes (log ++ [LogEntry.error ("Error in request: " ++ toString resp.status)]) reqs
          else
            match resp.body.get "context" with
            | .error e => .raised e log reqs
            | .ok ctx =>
            match ctx.get "matched" with
            | .error e => .raised e log reqs
            | .ok m =>
            match m.toInt with
            | .error e => .raised e log reqs
            | .ok matched =>
            match resp.body.get "context" with
            | .error e => .raised e log reqs
            | .ok ctx2 =>
            match ctx2.get "returned" with
            | .error e => .raised e log reqs
            | .ok rj =>
            match rj.toInt with
            | .error e => .raised e log reqs
            | .ok returned2 =>
            let log := log ++ [LogEntry.message (pageMsg matched returned2)]
            match resp.body.get "links" with
            | .error e => .raised e log reqs
            | .ok linksJ =>
            match linksJ.iterElems with
            | .error e => .raised e log reqs
            | .ok links =>
            match updateUrl links url with
            | .error e => .raised e log reqs
            | .ok url2 =>
            match resp.body.get "features" with
            | .error e => .raised e log reqs
            | .ok featsJ =>
            match featsJ.iterElems with
            | .error e => .raised e log reqs
            | .ok feats =>
            match mapFeatures feats scenes with
            | .error e => .raised e log reqs
            | .ok scenes2 =>
              search_stac_loop env params0 fuel url2 (request_count + 1)
                scenes2 log reqs returned2
        | _ => .raised (.requestError "invalid url") log reqs

/-- The query parameter dict `search_stac` builds for its first request. -/
def stacParams (b_box start_date end_date : String) (collections : List String) : SParams :=
  ⟨b_box, start_date ++ "T00:00:00Z/" ++ end_date ++ "T23:59:59Z", collections,
   50, "+properties.datetime"⟩

/-- Function `search_stac(url, b_box, start_date, end_date, collections)`:
builds the query parameters, runs the pagination loop from
`request_count = 1`, `returned = -9999`.  The `try/except` wrapper catches
only `requests.exceptions.RequestException`, so only that class is logged
before re-raising; other exceptions (e.g. `TypeError` from `int({})`)
propagate without the wrapper log line. -/
def search_stac (env : SEnv) (fuel : Nat) (url : String) (b_box : String)
    (start_date end_date : String) (collections : List String) : SearchOut :=
  let params0 : SParams := stacParams b_box start_date end_date collections
  match search_stac_loop env params0 fuel (J.jstr url) 1 [] [] [] (-9999) with
  | .done scenes log reqs => .done scenes log reqs
  | .spin scenes log reqs => .spin scenes log reqs
  | .raised e log reqs =>
      match e with
      | .requestError _ =>
          .raised e (log ++ [LogEntry.error "Error while searching STAC: traceback"]) reqs
      | _ => .raised e log reqs

/-- Scenes accumulated in an outcome. -/
def SearchOut.scenes : SearchOut → List SceneInfo
  | .done s _ _ => s
  | .raised _ _ _ => []
  | .spin s _ _ => s

/-- Log of an outcome. -/
def SearchOut.logOf : SearchOut → List LogEntry
  | .done _ l _ => l
  | .raised _ l _ => l
  | .spin _ l _ => l

/-- Request trace of an outcome. -/
def SearchOut.reqsOf : SearchOut → List SReq
  | .done _ _ r => r
  | .raised _ _ r => r
  | .spin _ _ r => r

/-- Whether an outcome models a raised exception. -/
def SearchOut.isRaised : SearchOut → Bool
  | .raised _ _ _ => true
  | _ => false

/-! ## Geometry helper (`buffer_extent`) -/

/-- An arcpy spatial reference, reduced to its factory (EPSG) code. -/
structure SpatialRef where
  factoryCode : Int
  deriving DecidableEq

/-- An arcpy extent: the four bounds. -/
structure ArcExtent where
  XMin : Rat
  YMin : Rat
  XMax : Rat
  YMax : Rat
  deriving DecidableEq

/-- An arcpy polygon as consumed by `buffer_extent`: its spatial reference
and its extent. -/
structure ArcPolygon where
  spatialReference : SpatialRef
  extent : ArcExtent
  deriving DecidableEq

/-- A point of an `arcpy.Array`. -/
structure PointR where
  x : Rat
  y : Rat
  deriving DecidableEq

/-- Model of `arcpy.Polygon(arcpy.Array([...]), spatial_reference=...)` as built by
`buffer_extent`: the point list and the spatial-reference code. -/
structure BuiltPolygon where
  points : List PointR
  sr : Int
  deriving DecidableEq

/-- The host reprojection engine, opaque (`polygon.projectAs`). -/
structure GeoEnv where
  projectAs : ArcPolygon → Int → ArcPolygon

/-- Decimal rendering of the coordinates in the bounding-box string
(Python float formatting is abstracted by an exact rational rendering). -/
def ratStr (q : Rat) : String := toString q.num ++ "/" ++ toString q.den

/-- Function `buffer_extent(extent_poly, buffer)`: reproject to WGS84 unless the
factory code is already 4326, widen each bound by `buffer / 100000`
degrees, render the bounding-box string
`f"{x_min},{y_min},{x_max},{y_max}"`, and build the closed five-point
rectangle `(min,min) (min,max) (max,max) (max,min) (min,min)` in EPSG
4326. -/
def buffer_extent (genv : GeoEnv) (extent_poly : ArcPolygon) (buffer : Rat) :
    String × BuiltPolygon :=
  let extent_poly_wgs84 :=
    if extent_poly.spatialReference.factoryCode ≠ 4326 then
      genv.projectAs extent_poly 4326
    else extent_poly
  let buffer_dd := buffer / 100000
  let x_min := extent_poly_wgs84.extent.XMin - buffer_dd
  let x_max := extent_poly_wgs84.extent.XMax + buffer_dd
  let y_min := extent_poly_wgs84.extent.YMin - buffer_dd
  let y_max := extent_poly_wgs84.extent.YMax + buffer_dd
  let buff_bb_wgs84 :=
    ratStr x_min ++ "," ++ ratStr y_min ++ "," ++ ratStr x_max ++ "," ++ ratStr y_max
  let buff_poly_wgs84 : BuiltPolygon :=
    ⟨[⟨x_min, y_min⟩, ⟨x_min, y_max⟩, ⟨x_max, y_max⟩, ⟨x_max, y_min⟩, ⟨x_min, y_min⟩], 4326⟩
  (buff_bb_wgs84, buff_poly_wgs84)

/-! ## Derived definitions used by the verification

Inputs to the embedded code (catalog pages, servers, scenes, environments)
constructed for the theorems; the code definitions above are the ones
translated from the source. -/

/-- A scene record made of plain string URLs and an integer EPSG code, the
shape produced by a well-formed catalog feature. -/
def mkScene (sid vu mu : String) (epsg : Int) : SceneInfo :=
  ⟨J.null, J.jstr sid, J.null, J.null, J.jstr vu, J.jstr mu, J.null, J.jint epsg, J.null⟩

/-- A response body of the general shape the catalog serves. -/
structure PageBody where
  matched : Int
  returned : Int
  links : List J
  features : List J

/-- Render a `PageBody` as the JSON the code parses. -/
def PageBody.toJ (pb : PageBody) : J :=
  .jobj [("context", .jobj [("matched", .jint pb.matched), ("returned", .jint pb.returned)]),
         ("links", .jarr pb.links),
         ("features", .jarr pb.features)]

/-- A catalog page for the list-of-pages servers: status, `returned` count
and features. -/
structure PageSpec where
  status : Nat
  returned : Int
  features : List J

def pageD : PageSpec := ⟨0, 0, []⟩

/-- The single scene extracted from a feature, defaulting when extraction
raises (used only under the hypothesis that it does not). -/
def scOf (f : J) : SceneInfo := ((mk_sc_info f).toOption).getD default

/-- Whether `mk_sc_info` succeeds on a feature. -/
def featOkB (f : J) : Bool := (mk_sc_info f).toOption.isSome

/-- A page that keeps pagination going: status 200, nonzero `returned`,
extractable features. -/
def pageGoodB (p : PageSpec) : Bool :=
  p.status == 200 && p.returned != 0 && p.features.all featOkB

/-- A run of `k` pad characters, used to give successive page URLs distinct,
length-decodable names. -/
def hashes : Nat → String
  | 0 => ""
  | n + 1 => hashes n ++ "#"

/-- URL of the `k`-th page served by `mkServer`. -/
def pageUrl (base : String) (k : Nat) : String := base ++ hashes k

/-- JSON body of the page at index `k`: matched 9999, the page `returned`
count, one `next` link to the following page URL, and its features. -/
def pageBodyJ (base : String) (k : Nat) (p : PageSpec) : J :=
  PageBody.toJ ⟨9999, p.returned,
    [J.jobj [("rel", J.jstr "next"), ("href", J.jstr (pageUrl base (k + 1)))]],
    p.features⟩

/-- A catalog server holding a fixed list of pages, addressed by the padded
page URLs; anything else gets a 500. -/
def mkServer (base : String) (pages : List PageSpec) : SEnv :=
  ⟨fun req =>
    let k := req.url.length - base.length
    match pages.get? k with
    | some p => ⟨p.status, pageBodyJ base k p⟩
    | none => ⟨500, J.null⟩⟩

/-- Scenes accumulated from pages `j, j+1, ..., j+k-1`. -/
def segScenes (pages : List PageSpec) : Nat → Nat → List SceneInfo
  | _, 0 => []
  | j, k + 1 => (pages.getD j pageD).features.map scOf ++ segScenes pages (j + 1) k

/-- Log entries produced by pages `j, ..., j+k-1`. -/
def segLog (pages : List PageSpec) : Nat → Nat → List LogEntry
  | _, 0 => []
  | j, k + 1 =>
      LogEntry.message (pageMsg 9999 (pages.getD j pageD).returned) :: segLog pages (j + 1) k

/-- Requests issued for pages `j, ..., j+k-1` (parameters only on the very
first request of the run). -/
def segReqs (base : String) (params0 : SParams) (pages : List PageSpec) :
    Nat → Nat → List SReq
  | _, 0 => []
  | j, k + 1 =>
      (⟨pageUrl base j, if j + 1 = 1 then some params0 else none⟩ : SReq) ::
        segReqs base params0 pages (j + 1) k

/-- The `returned` value live after consuming pages `j, ..., j+k-1`,
starting from `r`. -/
def segR (pages : List PageSpec) : Nat → Nat → Int → Int
  | _, 0, r => r
  | j, k + 1, _ => segR pages (j + 1) k (pages.getD j pageD).returned

/-- All links are dicts and none carries `rel == "next"`. -/
def linksNoNextB (links : List J) : Bool :=
  links.all (fun l =>
    match l with
    | .jobj kvs => !(((jlookup kvs "rel").getD (J.jobj [])).eqStr "next")
    | _ => false)

/-- All links are dicts and any `next` link carries a string `href`, so the
loop variable `url` stays a string. -/
def linksKeepStrB (links : List J) : Bool :=
  links.all (fun l =>
    match l with
    | .jobj kvs =>
        if ((jlookup kvs "rel").getD (J.jobj [])).eqStr "next" then
          match (jlookup kvs "href").getD (J.jobj []) with
          | .jstr _ => true
          | _ => false
        else true
    | _ => false)

/-- Readiness of a scene for the idempotence claim: string URLs, integer
EPSG code, and both target files already on disk. -/
def sceneReadyB (out_pfx out_dir : String) (st : WState) (item : SceneInfo) : Bool :=
  match item.vis_url, item.mtd_url, item.epsg_code with
  | .jstr vu, .jstr mu, .jint _ =>
      fsExists st.fs
        (pjoin out_dir (fnameOf out_pfx item.scene_id.fmt "TCI" (splitext vu).2)) &&
      fsExists st.fs
        (pjoin out_dir (fnameOf out_pfx item.scene_id.fmt "metadata" (splitext mu).2))
  | _, _, _ => false

/-- The empty world state. -/
def st0 : WState := ⟨[], [], [], []⟩

/-- A benign environment: every raster opens, every GET returns 200. -/
def env0 : Env := ⟨fun _ => true, fun u => .ok (200, "content of " ++ u)⟩

/-- An environment whose metadata GETs raise a request exception. -/
def envHF : Env := ⟨fun _ => true, fun _ => .error (.requestError "connection refused")⟩

/-- A scene whose visual asset URL is JSON null and whose metadata URL is
present. -/
def sceneNullVis : SceneInfo :=
  ⟨J.jstr "2024-05-01T10:00:00Z", J.jstr "S2A_X", J.jstr "uri", J.jstr "https://e.com/t.jpg",
   J.null, J.jstr "https://e.com/x/MTD.xml", J.jint 3, J.jint 32633, J.jarr []⟩

/-- Two fully well-formed scenes for the abort counterexample. -/
def sceneA : SceneInfo := mkScene "S2A_A" "https://e.com/a/TCI.tif" "https://e.com/a/MTD.xml" 32633

def sceneB : SceneInfo := mkScene "S2B_B" "https://e.com/b/TCI.tif" "https://e.com/b/MTD.xml" 32634

/-! ## Test fixtures for the claim theorems -/

/-- A server every one of whose responses is a 200 page with a nonzero
`returned`, parseable context, links that keep the loop URL a string, and
extractable features. -/
def goodSpinServer (env : SEnv) : Prop :=
  ∀ req : SReq, ∃ pb : PageBody,
    env.server req = ⟨200, pb.toJ⟩ ∧ pb.returned ≠ 0 ∧
    linksKeepStrB pb.links = true ∧ pb.features.all featOkB = true

def pbConst : PageBody := ⟨7, 1, [], []⟩

def constEnv : SEnv := ⟨fun _ => ⟨200, pbConst.toJ⟩⟩

def constParams : SParams := stacParams "0,0,1,1" "2024-01-01" "2024-01-31" ["sentinel-2-l2a"]

def featJ (n : Nat) : J :=
  J.jobj [("id", J.jstr ("S2_" ++ toString n)),
          ("properties", J.jobj [("datetime", J.jstr "2024"), ("proj:epsg", J.jint 32633)]),
          ("assets", J.jobj [])]

def feats50 : List J := (List.range 50).map featJ

def pagesC4 : List PageSpec := [⟨200, 50, feats50⟩, ⟨200, 50, feats50⟩]

def lastC4 : PageSpec := ⟨200, 0, []⟩

def badC5 : PageSpec := ⟨500, 50, feats50⟩

def geo0 : GeoEnv := ⟨fun p _ => p⟩

def polyW : ArcPolygon := ⟨⟨4326⟩, ⟨10, 20, 30, 40⟩⟩

def envOpenFail : Env := ⟨fun _ => false, fun u => .ok (200, "meta of " ++ u)⟩

def env404 : Env := ⟨fun _ => true, fun _ => .ok (404, "not found")⟩

/-- A catalog server answering every request with status 200 and an empty
JSON object, so the page has no `context` key and `int({})` raises. -/
def badCtxEnv : SEnv := ⟨fun _ => ⟨200, J.jobj []⟩⟩

def st1 : WState :=
  ⟨[("out/AOI1_S2A_A_TCI.tif", "raster-data"), ("out/AOI1_S2A_A_metadata.xml", "m")],
   [], [], []⟩


/-! ## Supporting lemmas -/

lemma fsExists_fsWrite_self (fs : List (String × String)) (p c : String) :
    fsExists (fsWrite fs p c) p = true := by
  induction fs with
  | nil => simp [fsWrite, fsExists]
  | cons hd tl ih =>
      by_cases h : hd.1 = p
      · simp [fsWrite, fsExists, h]
      · cases hd with
        | mk a b => simp_all [fsWrite, fsExists]

lemma fsExists_fsWrite_ne (fs : List (String × String)) (p q c : String) (h : q ≠ p) :
    fsExists (fsWrite fs p c) q = fsExists fs q := by
  induction fs with
  | nil => simp [fsWrite, fsExists, Ne.symm h]
  | cons hd tl ih =>
      cases hd with
      | mk a b =>
        by_cases h2 : a = p
        · simp [fsWrite, fsExists, h2, h]
        · simp_all [fsWrite, fsExists]

lemma hashes_length (n : Nat) : (hashes n).length = n := by
  induction n with
  | zero => rfl
  | succ n ih =>
      rw [hashes, String.length_append, ih]
      rfl

lemma pageUrl_length (base : String) (k : Nat) :
    (pageUrl base k).length = base.length + k := by
  simp [pageUrl, String.length_append, hashes_length]

lemma pageUrl_zero (base : String) : pageUrl base 0 = base := by
  simp [pageUrl, hashes]

lemma mkServer_at (base : String) (pages : List PageSpec) (k : Nat) (q : Option SParams)
    (hk : k < pages.length) :
    (mkServer base pages).server ⟨pageUrl base k, q⟩
      = ⟨(pages.getD k pageD).status, pageBodyJ base k (pages.getD k pageD)⟩ := by
  simp [mkServer, pageUrl_length, List.getD_eq_getElem?_getD]
  rw [List.getElem?_eq_getElem hk]
  simp

lemma mk_sc_info_ok_of_featOkB (f : J) (h : featOkB f = true) :
    mk_sc_info f = .ok (scOf f) := by
  unfold featOkB at h
  unfold scOf
  cases hm : mk_sc_info f with
  | ok sc => simp [Except.toOption, hm]
  | error e => rw [hm] at h; simp [Except.toOption] at h

lemma mapFeatures_ok (fs : List J) (acc : List SceneInfo) (h : fs.all featOkB = true) :
    mapFeatures fs acc = .ok (acc ++ fs.map scOf) := by
  induction fs generalizing acc with
  | nil => simp [mapFeatures]
  | cons f rest ih =>
      simp only [List.all_cons, Bool.and_eq_true] at h
      rw [mapFeatures, mk_sc_info_ok_of_featOkB f h.1]
      simp [ih _ h.2]

lemma loop_step_body (env : SEnv) (params0 : SParams) (fuel : Nat) (u : String)
    (rc : Nat) (scenes : List SceneInfo) (log : List LogEntry) (reqs : List SReq)
    (r : Int) (pb : PageBody) (url2 : J)
    (hr : r ≠ 0)
    (hresp : env.server ⟨u, if rc = 1 then some params0 else none⟩ = ⟨200, pb.toJ⟩)
    (hurl : updateUrl pb.links (J.jstr u) = .ok url2)
    (hfeats : pb.features.all featOkB = true) :
    search_stac_loop env params0 (fuel + 1) (J.jstr u) rc scenes log reqs r
      = search_stac_loop env params0 fuel url2 (rc + 1)
          (scenes ++ pb.features.map scOf)
          (log ++ [LogEntry.message (pageMsg pb.matched pb.returned)])
          (reqs ++ [⟨u, if rc = 1 then some params0 else none⟩]) pb.returned := by
  rw [search_stac_loop]
  simp only [if_neg hr]
  rw [hresp]
  simp [PageBody.toJ, J.get, jlookup, J.toInt, J.iterElems, Except.bind, Except.map,
    mapFeatures_ok _ _ hfeats, hurl]

lemma loop_stop_zero (env : SEnv) (params0 : SParams) (fuel : Nat) (url : J) (rc : Nat)
    (scenes : List SceneInfo) (log : List LogEntry) (reqs : List SReq) :
    search_stac_loop env params0 fuel url rc scenes log reqs 0 = .done scenes log reqs := by
  rw [search_stac_loop.eq_def]
  simp

lemma loop_stop_non200 (env : SEnv) (params0 : SParams) (fuel : Nat) (u : String) (rc : Nat)
    (scenes : List SceneInfo) (log : List LogEntry) (reqs : List SReq) (r : Int)
    (hr : r ≠ 0)
    (hst : (env.server ⟨u, if rc = 1 then some params0 else none⟩).status ≠ 200) :
    search_stac_loop env params0 (fuel + 1) (J.jstr u) rc scenes log reqs r
      = .done scenes
          (log ++ [LogEntry.error ("Error in request: "
            ++ toString (env.server ⟨u, if rc = 1 then some params0 else none⟩).status)])
          (reqs ++ [⟨u, if rc = 1 then some params0 else none⟩]) := by
  rw [search_stac_loop]
  simp [hr, hst]

lemma updateUrl_single_next (next : String) (url : J) :
    updateUrl [J.jobj [("rel", J.jstr "next"), ("href", J.jstr next)]] url
      = .ok (J.jstr next) := by
  simp [updateUrl, J.get, jlookup, J.eqStr]

lemma pageGoodB_spec (p : PageSpec) (h : pageGoodB p = true) :
    p.status = 200 ∧ p.returned ≠ 0 ∧ p.features.all featOkB = true := by
  simp only [pageGoodB, Bool.and_eq_true, beq_iff_eq, bne_iff_ne, ne_eq] at h
  exact ⟨h.1.1, h.1.2, h.2⟩

lemma range_all_succ (f : Nat → Bool) (k : Nat)
    (h : (List.range (k + 1)).all f = true) :
    f 0 = true ∧ (List.range k).all (fun i => f (i + 1)) = true := by
  rw [List.range_succ_eq_map] at h
  simpa [List.all_map, Function.comp] using h

lemma loop_advance (base : String) (params0 : SParams) (pages : List PageSpec)
    (k : Nat) :
    ∀ (j fuel : Nat) (scenes : List SceneInfo) (log : List LogEntry) (reqs : List SReq)
      (r : Int), j + k ≤ pages.length → r ≠ 0 →
      (List.range k).all (fun i => pageGoodB (pages.getD (j + i) pageD)) = true →
      search_stac_loop (mkServer base pages) params0 (fuel + k) (J.jstr (pageUrl base j))
          (j + 1) scenes log reqs r
        = search_stac_loop (mkServer base pages) params0 fuel (J.jstr (pageUrl base (j + k)))
            (j + k + 1) (scenes ++ segScenes pages j k) (log ++ segLog pages j k)
            (reqs ++ segReqs base params0 pages j k) (segR pages j k r) := by
  induction k with
  | zero =>
      intro j fuel scenes log reqs r hjk hr hgood
      simp [segScenes, segLog, segReqs, segR]
  | succ k ih =>
      intro j fuel scenes log reqs r hjk hr hgood
      have hj : j < pages.length := by omega
      obtain ⟨h0, hrest⟩ := range_all_succ _ k hgood
      simp only [Nat.add_zero] at h0
      obtain ⟨hst, hret, hfeats⟩ := pageGoodB_spec _ h0
      have hresp := mkServer_at base pages j (if j + 1 = 1 then some params0 else none) hj
      rw [hst] at hresp
      have hfe : fuel + (k + 1) = (fuel + k) + 1 := by omega
      rw [hfe]
      rw [loop_step_body (mkServer base pages) params0 (fuel + k) (pageUrl base j) (j + 1)
            scenes log reqs r
            ⟨9999, (pages.getD j pageD).returned,
             [J.jobj [("rel", J.jstr "next"), ("href", J.jstr (pageUrl base (j + 1)))]],
             (pages.getD j pageD).features⟩
            (J.jstr (pageUrl base (j + 1))) hr hresp (updateUrl_single_next _ _) hfeats]
      dsimp only
      have hshift : (List.range k).all
          (fun i => pageGoodB (pages.getD ((j + 1) + i) pageD)) = true := by
        simp only [List.all_eq_true] at hrest ⊢
        intro i hi
        have h2 := hrest i hi
        have e : j + (i + 1) = (j + 1) + i := by omega
        rw [e] at h2
        exact h2
      have hjk2 : (j + 1) + k ≤ pages.length := by omega
      rw [ih (j + 1) fuel _ _ _ _ hjk2 hret hshift]
      have e1 : (j + 1) + k = j + (k + 1) := by omega
      rw [e1]
      simp [segScenes, segLog, segReqs, segR, List.append_assoc]

lemma range_all_shift (g : Nat → Bool) (k j : Nat)
    (h : (List.range k).all (fun i => g (j + (i + 1))) = true) :
    (List.range k).all (fun i => g ((j + 1) + i)) = true := by
  simp only [List.all_eq_true] at h ⊢
  intro i hi
  have h2 := h i hi
  have e : j + (i + 1) = (j + 1) + i := by omega
  rw [e] at h2
  exact h2

lemma segR_ne_zero (pages : List PageSpec) (k : Nat) :
    ∀ (j : Nat) (r : Int), r ≠ 0 →
      (List.range k).all (fun i => pageGoodB (pages.getD (j + i) pageD)) = true →
      segR pages j k r ≠ 0 := by
  induction k with
  | zero =>
      intro j r hr _
      simpa [segR] using hr
  | succ k ih =>
      intro j r hr hgood
      obtain ⟨h0, hrest⟩ := range_all_succ _ k hgood
      simp only [Nat.add_zero] at h0
      obtain ⟨_, hret, _⟩ := pageGoodB_spec _ h0
      rw [segR]
      exact ih (j + 1) _ hret
        (range_all_shift (fun n => pageGoodB (pages.getD n pageD)) k j hrest)

lemma segScenes_append (pages extra : List PageSpec) (k : Nat) :
    ∀ j, j + k ≤ pages.length →
      segScenes (pages ++ extra) j k = segScenes pages j k := by
  induction k with
  | zero => intro j _; rfl
  | succ k ih =>
      intro j h
      rw [segScenes, segScenes, List.getD_append _ _ _ _ (by omega), ih (j + 1) (by omega)]

lemma segLog_append (pages extra : List PageSpec) (k : Nat) :
    ∀ j, j + k ≤ pages.length →
      segLog (pages ++ extra) j k = segLog pages j k := by
  induction k with
  | zero => intro j _; rfl
  | succ k ih =>
      intro j h
      rw [segLog, segLog, List.getD_append _ _ _ _ (by omega), ih (j + 1) (by omega)]

lemma segReqs_append (base : String) (params0 : SParams) (pages extra : List PageSpec) (k : Nat) :
    ∀ j, segReqs base params0 (pages ++ extra) j k = segReqs base params0 pages j k := by
  induction k with
  | zero => intro j; rfl
  | succ k ih =>
      intro j
      rw [segReqs, segReqs, ih (j + 1)]

lemma range_all_of_all (pages extra : List PageSpec) (h : pages.all pageGoodB = true) :
    (List.range pages.length).all
      (fun i => pageGoodB ((pages ++ extra).getD (0 + i) pageD)) = true := by
  simp only [List.all_eq_true, List.mem_range] at h ⊢
  intro i hi
  rw [Nat.zero_add, List.getD_append _ _ _ _ hi, List.getD_eq_getElem _ _ hi]
  exact h _ (List.getElem_mem hi)

lemma getD_append_last (pages : List PageSpec) (lastPage : PageSpec) :
    (pages ++ [lastPage]).getD pages.length pageD = lastPage := by
  rw [List.getD_append_right _ _ _ _ (Nat.le_refl _)]
  simp [List.getD]

lemma updateUrl_noNext : ∀ (links : List J), linksNoNextB links = true →
    ∀ url : J, updateUrl links url = .ok url := by
  intro links
  induction links with
  | nil => intro _ url; rfl
  | cons l rest ih =>
      intro h url
      simp only [linksNoNextB, List.all_cons, Bool.and_eq_true] at h
      obtain ⟨h1, h2⟩ := h
      cases l with
      | jobj kvs =>
          rw [updateUrl]
          simp only [J.get]
          rw [if_neg (by simp_all)]
          exact ih (by simpa [linksNoNextB] using h2) url
      | null => simp at h1
      | jstr s => simp at h1
      | jint n => simp at h1
      | jarr xs => simp at h1

lemma updateUrl_keepStr : ∀ (links : List J), linksKeepStrB links = true →
    ∀ u : String, ∃ u2 : String, updateUrl links (J.jstr u) = .ok (J.jstr u2) := by
  intro links
  induction links with
  | nil => intro _ u; exact ⟨u, rfl⟩
  | cons l rest ih =>
      intro h u
      simp only [linksKeepStrB, List.all_cons, Bool.and_eq_true] at h
      obtain ⟨h1, h2⟩ := h
      have ih2 := ih (by simpa [linksKeepStrB] using h2)
      cases l with
      | jobj kvs =>
          rw [updateUrl]
          simp only [J.get]
          by_cases hrel : ((jlookup kvs "rel").getD (J.jobj [])).eqStr "next" = true
          · rw [if_pos hrel]
            dsimp only at h1
            rw [if_pos hrel] at h1
            cases hh : (jlookup kvs "href").getD (J.jobj []) with
            | jstr s => exact ih2 s
            | null => rw [hh] at h1; simp at h1
            | jint n => rw [hh] at h1; simp at h1
            | jarr xs => rw [hh] at h1; simp at h1
            | jobj kvs2 => rw [hh] at h1; simp at h1
          · rw [if_neg hrel]
            exact ih2 u
      | null => simp at h1
      | jstr s => simp at h1
      | jint n => simp at h1
      | jarr xs => simp at h1

lemma append_extend {α : Type} (reqs s t x : List α) (hx : x = reqs ++ s ++ t) :
    ∃ w, x = reqs ++ w := ⟨s ++ t, by rw [hx, List.append_assoc]⟩

lemma loop_reqs_mono (env : SEnv) (params0 : SParams) (fuel : Nat) :
    ∀ (url : J) (rc : Nat) (scenes : List SceneInfo) (log : List LogEntry)
      (reqs : List SReq) (r : Int),
      ∃ t, (search_stac_loop env params0 fuel url rc scenes log reqs r).reqsOf = reqs ++ t := by
  induction fuel with
  | zero =>
      intro url rc scenes log reqs r
      rw [search_stac_loop.eq_def]
      by_cases hr : r = 0 <;> simp [hr, SearchOut.reqsOf]
  | succ fuel ih =>
      intro url rc scenes log reqs r
      rw [search_stac_loop.eq_def]
      dsimp only
      by_cases hr : r = 0
      · simp [hr, SearchOut.reqsOf]
      · rw [if_neg hr]
        cases url with
        | jstr u =>
            dsimp only
            repeat' split
            all_goals try exact ⟨_, rfl⟩
            all_goals
              obtain ⟨t, ht⟩ := ih _ _ _ _ _ _
              exact append_extend _ _ _ _ ht
        | null => exact ⟨[], by simp [SearchOut.reqsOf]⟩
        | jint n => exact ⟨[], by simp [SearchOut.reqsOf]⟩
        | jarr xs => exact ⟨[], by simp [SearchOut.reqsOf]⟩
        | jobj kvs => exact ⟨[], by simp [SearchOut.reqsOf]⟩

lemma loop_first_req (env : SEnv) (params0 : SParams) (fuel : Nat) (u : String)
    (rc : Nat) (scenes : List SceneInfo) (log : List LogEntry) (reqs : List SReq)
    (r : Int) (hr : r ≠ 0) :
    ∃ t, (search_stac_loop env params0 (fuel + 1) (J.jstr u) rc scenes log reqs r).reqsOf
      = reqs ++ [⟨u, if rc = 1 then some params0 else none⟩] ++ t := by
  rw [search_stac_loop.eq_def]
  dsimp only
  rw [if_neg hr]
  repeat' split
  all_goals
    first
      | (obtain ⟨t, ht⟩ := loop_reqs_mono env params0 fuel _ _ _ _ _ _
         exact ⟨t, ht⟩)
      | exact ⟨[], by simp [SearchOut.reqsOf]⟩

lemma loop_spin (env : SEnv) (params0 : SParams) (H : goodSpinServer env) (fuel : Nat) :
    ∀ (u : String) (rc : Nat) (scenes : List SceneInfo) (log : List LogEntry)
      (reqs : List SReq) (r : Int), r ≠ 0 →
      ∃ s l q, search_stac_loop env params0 fuel (J.jstr u) rc scenes log reqs r
        = .spin s l q := by
  induction fuel with
  | zero =>
      intro u rc scenes log reqs r hr
      refine ⟨scenes, log, reqs, ?_⟩
      rw [search_stac_loop.eq_def]
      dsimp only
      rw [if_neg hr]
  | succ fuel ih =>
      intro u rc scenes log reqs r hr
      obtain ⟨pb, hresp, hret, hlinks, hfeats⟩ := H ⟨u, if rc = 1 then some params0 else none⟩
      obtain ⟨u2, hurl⟩ := updateUrl_keepStr pb.links hlinks u
      rw [loop_step_body env params0 fuel u rc scenes log reqs r pb (J.jstr u2)
            hr hresp hurl hfeats]
      exact ih u2 (rc + 1) _ _ _ _ hret

lemma download_img_skip (env : Env) (sid url : J) (lyr outf : String) (st : WState)
    (h : fsExists st.fs outf = true) :
    download_img env sid url lyr outf st
      = (addMsg st ("Image for " ++ sid.fmt ++ " already exists at " ++ outf), .ok ()) := by
  simp [download_img, download_img_body, h]

lemma download_mtd_skip (env : Env) (sid url : J) (outf : String) (st : WState)
    (h : fsExists st.fs outf = true) :
    download_mtd env sid url outf st
      = (addMsg st ("metadata for " ++ sid.fmt ++ " exists in " ++ outf), .ok ()) := by
  simp [download_mtd, download_mtd_body, h]

lemma process_scene_skip (env : Env) (item : SceneInfo) (out_pfx out_dir temp_dir : String)
    (st : WState) (h : sceneReadyB out_pfx out_dir st item = true) :
    ∃ msgs, process_scene env item out_pfx out_dir temp_dir st
      = ({ st with log := st.log ++ msgs }, .ok ()) := by
  unfold sceneReadyB at h
  cases hv : item.vis_url <;> rw [hv] at h <;> try simp at h
  case jstr vu =>
  cases hm : item.mtd_url <;> rw [hm] at h <;> try simp at h
  case jstr mu =>
  cases he : item.epsg_code <;> rw [he] at h <;> try simp at h
  case jint n =>
  obtain ⟨h1, h2⟩ := h
  refine ⟨[LogEntry.message ("Image for " ++ item.scene_id.fmt ++ " already exists at "
            ++ pjoin out_dir (fnameOf out_pfx item.scene_id.fmt "TCI" (splitext vu).2)),
           LogEntry.message ("metadata for " ++ item.scene_id.fmt ++ " exists in "
            ++ pjoin out_dir (fnameOf out_pfx item.scene_id.fmt "metadata" (splitext mu).2))], ?_⟩
  unfold process_scene
  rw [hv, hm, he]
  simp only [get_fname_from_url, get_fname_from_url_body, mkSpatialRef]
  rw [download_img_skip env item.scene_id (J.jstr vu) _ _ st h1]
  dsimp only
  rw [download_mtd_skip env item.scene_id (J.jstr mu) _ (addMsg st _)
        (by simpa [addMsg] using h2)]
  simp [addMsg, List.append_assoc]

lemma get_data_loop_skip (env : Env) (out_pfx out_dir temp_dir : String)
    (scenes : List SceneInfo) :
    ∀ (st : WState) (c tot : Nat),
      scenes.all (sceneReadyB out_pfx out_dir st) = true →
      ∃ msgs, get_data_loop env scenes out_pfx out_dir temp_dir c tot st
        = ({ st with log := st.log ++ msgs }, .ok ()) := by
  induction scenes with
  | nil =>
      intro st c tot _
      exact ⟨[], by simp [get_data_loop]⟩
  | cons item rest ih =>
      intro st c tot hall
      simp only [List.all_cons, Bool.and_eq_true] at hall
      obtain ⟨msgs1, h1⟩ := process_scene_skip env item out_pfx out_dir temp_dir st hall.1
      rw [get_data_loop, h1]
      dsimp only
      obtain ⟨msgs2, h2⟩ := ih
        (addMsg { st with log := st.log ++ msgs1 }
          ("downloaded " ++ toString (c + 1) ++ " of " ++ toString tot ++ " images"))
        (c + 1) tot hall.2
      rw [h2]
      refine ⟨msgs1 ++ LogEntry.message ("downloaded " ++ toString (c + 1) ++ " of "
        ++ toString tot ++ " images") :: msgs2, ?_⟩
      simp [addMsg, List.append_assoc]


/-! ## Claim theorems -/

/-- Claim C1 (counterexample): with two well-formed scenes and a metadata GET
that raises a request exception, `get_data` aborts on the first scene: the
result is the re-raised error, and the second scene is never processed (no
raster open, no metadata GET for it). -/
theorem claim1_counterexample :
    (get_data envHF [sceneA, sceneB] "AOI1" "out" "tmp" st0).2
        = .error (.requestError "connection refused")
  ∧ (get_data envHF [sceneA, sceneB] "AOI1" "out" "tmp" st0).1.gdalOpens
        = ["/vsicurl/https://e.com/a/TCI.tif"]
  ∧ (get_data envHF [sceneA, sceneB] "AOI1" "out" "tmp" st0).1.httpGets
        = ["https://e.com/a/MTD.xml"] :=
  ⟨rfl, rfl, rfl⟩

/-- Claim C1 (amended): a raster open failure is logged through the host error
channel, leaves the visual output uncreated, and processing continues with
the remaining scenes exactly as the loop would run them; but an HTTP
request exception during the metadata download is re-raised and aborts the
whole run. -/
theorem claim1_amended (env : Env) (sid vu mu txt : String) (epsg : Int)
    (rest : List SceneInfo) (pfx d t : String) (c tot : Nat) (st : WState)
    (hvs : startsWithL vu "/vsicurl/" = false)
    (hopen : env.gdalOpen ("/vsicurl/" ++ vu) = false)
    (hget : env.httpGet mu = .ok (200, txt))
    (hv : fsExists st.fs (pjoin d (fnameOf pfx sid "TCI" (splitext vu).2)) = false)
    (hm : fsExists st.fs (pjoin d (fnameOf pfx sid "metadata" (splitext mu).2)) = false)
    (hne : pjoin d (fnameOf pfx sid "TCI" (splitext vu).2)
         ≠ pjoin d (fnameOf pfx sid "metadata" (splitext mu).2)) :
    ∃ st1, get_data_loop env (mkScene sid vu mu epsg :: rest) pfx d t c tot st
        = get_data_loop env rest pfx d t (c + 1) tot st1
      ∧ st1.log = st.log
          ++ [LogEntry.error ("Failed to open dataset for " ++ sid),
              LogEntry.message ("saved metadata for " ++ sid ++ " in "
                ++ pjoin d (fnameOf pfx sid "metadata" (splitext mu).2)),
              LogEntry.message ("downloaded " ++ toString (c + 1) ++ " of "
                ++ toString tot ++ " images")]
      ∧ fsExists st1.fs (pjoin d (fnameOf pfx sid "TCI" (splitext vu).2)) = false
      ∧ st1.gdalOpens = st.gdalOpens ++ ["/vsicurl/" ++ vu]
      ∧ st1.httpGets = st.httpGets ++ [mu]
      ∧ (∀ (env2 : Env) (e : PyErr),
           env2.gdalOpen ("/vsicurl/" ++ vu) = false → env2.httpGet mu = .error e →
           (get_data env2 (mkScene sid vu mu epsg :: rest) pfx d t st).2 = .error e) := by
  refine ⟨{ st with
      fs := fsWrite
              (fsWrite st.fs (pjoin d (fnameOf pfx sid "metadata" (splitext mu).2)) "")
              (pjoin d (fnameOf pfx sid "metadata" (splitext mu).2)) txt,
      log := st.log
          ++ [LogEntry.error ("Failed to open dataset for " ++ sid),
              LogEntry.message ("saved metadata for " ++ sid ++ " in "
                ++ pjoin d (fnameOf pfx sid "metadata" (splitext mu).2)),
              LogEntry.message ("downloaded " ++ toString (c + 1) ++ " of "
                ++ toString tot ++ " images")],
      gdalOpens := st.gdalOpens ++ ["/vsicurl/" ++ vu],
      httpGets := st.httpGets ++ [mu] }, ?_, rfl, ?_, rfl, rfl, ?_⟩
  · rw [get_data_loop]
    simp [process_scene, mkScene, get_fname_from_url, get_fname_from_url_body, J.fmt,
      mkSpatialRef, download_img, download_img_body, download_mtd, download_mtd_body,
      putFile, addMsg, addErr, hv, hm, hvs, hopen, hget, List.append_assoc]
  · rw [fsExists_fsWrite_ne _ _ _ _ hne, fsExists_fsWrite_ne _ _ _ _ hne, hv]
  · intro env2 e hopen2 hget2
    simp [get_data, get_data_loop, process_scene, mkScene, get_fname_from_url,
      get_fname_from_url_body, J.fmt, mkSpatialRef, download_img, download_img_body,
      download_mtd, download_mtd_body, putFile, addMsg, addErr, hv, hm, hvs, hopen2, hget2]

theorem claim1_witness :
    startsWithL "https://e.com/a/TCI.tif" "/vsicurl/" = false
  ∧ envOpenFail.gdalOpen ("/vsicurl/" ++ "https://e.com/a/TCI.tif") = false
  ∧ envOpenFail.httpGet "https://e.com/a/MTD.xml"
      = .ok (200, "meta of " ++ "https://e.com/a/MTD.xml")
  ∧ fsExists st0.fs
      (pjoin "out" (fnameOf "AOI1" "S2A_A" "TCI" (splitext "https://e.com/a/TCI.tif").2)) = false
  ∧ fsExists st0.fs
      (pjoin "out" (fnameOf "AOI1" "S2A_A" "metadata" (splitext "https://e.com/a/MTD.xml").2)) = false
  ∧ pjoin "out" (fnameOf "AOI1" "S2A_A" "TCI" (splitext "https://e.com/a/TCI.tif").2)
      ≠ pjoin "out" (fnameOf "AOI1" "S2A_A" "metadata" (splitext "https://e.com/a/MTD.xml").2)
  ∧ (∃ st1, get_data_loop envOpenFail
        (mkScene "S2A_A" "https://e.com/a/TCI.tif" "https://e.com/a/MTD.xml" 32633 :: [sceneB])
        "AOI1" "out" "tmp" 0 2 st0
      = get_data_loop envOpenFail [sceneB] "AOI1" "out" "tmp" (0 + 1) 2 st1
    ∧ st1.log = st0.log
        ++ [LogEntry.error ("Failed to open dataset for " ++ "S2A_A"),
            LogEntry.message ("saved metadata for " ++ "S2A_A" ++ " in "
              ++ pjoin "out" (fnameOf "AOI1" "S2A_A" "metadata"
                    (splitext "https://e.com/a/MTD.xml").2)),
            LogEntry.message ("downloaded " ++ toString (0 + 1) ++ " of "
              ++ toString 2 ++ " images")]
    ∧ fsExists st1.fs
        (pjoin "out" (fnameOf "AOI1" "S2A_A" "TCI" (splitext "https://e.com/a/TCI.tif").2)) = false
    ∧ st1.gdalOpens = st0.gdalOpens ++ ["/vsicurl/" ++ "https://e.com/a/TCI.tif"]
    ∧ st1.httpGets = st0.httpGets ++ ["https://e.com/a/MTD.xml"]
    ∧ (∀ (env2 : Env) (e : PyErr),
         env2.gdalOpen ("/vsicurl/" ++ "https://e.com/a/TCI.tif") = false →
         env2.httpGet "https://e.com/a/MTD.xml" = .error e →
         (get_data env2
            (mkScene "S2A_A" "https://e.com/a/TCI.tif" "https://e.com/a/MTD.xml" 32633
              :: [sceneB]) "AOI1" "out" "tmp" st0).2 = .error e)) := by
  refine ⟨by decide, rfl, rfl, by decide, by decide, by decide, ?_⟩
  exact claim1_amended envOpenFail "S2A_A" "https://e.com/a/TCI.tif" "https://e.com/a/MTD.xml"
    ("meta of " ++ "https://e.com/a/MTD.xml") 32633 [sceneB] "AOI1" "out" "tmp" 0 2 st0
    (by decide) rfl rfl (by decide) (by decide) (by decide)

/-- Claim C2 (code evaluated at the failing input): a scene whose visual URL is
JSON null makes `get_data` raise a `TypeError` inside
`get_fname_from_url` (`os.path.splitext(None)`) before the
`None`-skip can run: the run errors, no metadata is fetched despite its
URL being present, and no file is created — while `download_img` called
directly on a null URL does show the intended warn-and-skip branch. -/
theorem claim2_null_visual_crashes :
    (get_data env0 [sceneNullVis] "AOI1" "out" "tmp" st0).2
        = .error (.typeError "splitext expected str")
  ∧ (get_data env0 [sceneNullVis] "AOI1" "out" "tmp" st0).1.httpGets = []
  ∧ (get_data env0 [sceneNullVis] "AOI1" "out" "tmp" st0).1.fs = []
  ∧ (get_data env0 [sceneNullVis] "AOI1" "out" "tmp" st0).1.log
      = [LogEntry.error "Error getting filename for S2A_X: traceback",
         LogEntry.error "Error getting data: traceback"]
  ∧ download_img env0 (J.jstr "S2A_X") J.null "tmp/S2A_X_TCI.vrt" "out/AOI1_S2A_X_TCI.tif" st0
      = (addMsg st0 "Warning: Image for S2A_X is not available.", .ok ())
  ∧ download_mtd env0 (J.jstr "S2A_X") J.null "out/AOI1_S2A_X_metadata.xml" st0
      = (addMsg st0 "WARNING metadata for S2A_X is not available", .ok ()) := by
  refine ⟨rfl, rfl, rfl, rfl, rfl, rfl⟩

/-- Claim C3: an already-existing target file makes the corresponding download
sub-step a pure log-and-skip, and a `get_data` run over scenes whose
target files all exist changes nothing but the log — in particular it
performs no raster open and no metadata GET. -/
theorem claim3_skip_and_idempotent (env : Env) (out_pfx out_dir temp_dir : String)
    (scenes : List SceneInfo) (st : WState)
    (hready : scenes.all (sceneReadyB out_pfx out_dir st) = true) :
    (∀ (sid url : J) (lyr outf : String) (st2 : WState), fsExists st2.fs outf = true →
        download_img env sid url lyr outf st2
          = (addMsg st2 ("Image for " ++ sid.fmt ++ " already exists at " ++ outf), .ok ()))
  ∧ (∀ (sid url : J) (outf : String) (st2 : WState), fsExists st2.fs outf = true →
        download_mtd env sid url outf st2
          = (addMsg st2 ("metadata for " ++ sid.fmt ++ " exists in " ++ outf), .ok ()))
  ∧ (∃ msgs, get_data env scenes out_pfx out_dir temp_dir st
        = ({ st with log := st.log ++ msgs }, .ok ())) := by
  refine ⟨fun sid url lyr outf st2 h => download_img_skip env sid url lyr outf st2 h,
          fun sid url outf st2 h => download_mtd_skip env sid url outf st2 h, ?_⟩
  obtain ⟨msgs, h⟩ := get_data_loop_skip env out_pfx out_dir temp_dir scenes st 0
    scenes.length hready
  exact ⟨msgs, by simp [get_data, h]⟩

theorem claim3_witness :
    [sceneA].all (sceneReadyB "AOI1" "out" st1) = true
  ∧ ((∀ (sid url : J) (lyr outf : String) (st2 : WState), fsExists st2.fs outf = true →
        download_img env0 sid url lyr outf st2
          = (addMsg st2 ("Image for " ++ sid.fmt ++ " already exists at " ++ outf), .ok ()))
    ∧ (∀ (sid url : J) (outf : String) (st2 : WState), fsExists st2.fs outf = true →
        download_mtd env0 sid url outf st2
          = (addMsg st2 ("metadata for " ++ sid.fmt ++ " exists in " ++ outf), .ok ()))
    ∧ (∃ msgs, get_data env0 [sceneA] "AOI1" "out" "tmp" st1
        = ({ st1 with log := st1.log ++ msgs }, .ok ()))) :=
  ⟨by decide, claim3_skip_and_idempotent env0 "AOI1" "out" "tmp" [sceneA] st1 (by decide)⟩

/-- Claim C4: `search_stac` stops exactly at the first page whose `returned`
count is 0, having appended the features of each page, in page order, to the
accumulated scene list, with one request per page. -/
theorem claim4_pagination (base b_box sd ed : String) (colls : List String)
    (pages : List PageSpec) (lastPage : PageSpec) (extra : Nat)
    (hgood : pages.all pageGoodB = true)
    (hst : lastPage.status = 200) (hret : lastPage.returned = 0)
    (hfeats : lastPage.features.all featOkB = true) :
    search_stac (mkServer base (pages ++ [lastPage])) (extra + 1 + pages.length)
        base b_box sd ed colls
      = .done
          (segScenes pages 0 pages.length ++ lastPage.features.map scOf)
          (segLog pages 0 pages.length ++ [LogEntry.message (pageMsg 9999 0)])
          (segReqs base (stacParams b_box sd ed colls) pages 0 pages.length
            ++ [⟨pageUrl base pages.length,
                 if pages.length + 1 = 1 then some (stacParams b_box sd ed colls) else none⟩]) := by
  have hcomb := range_all_of_all pages [lastPage] hgood
  have hlen : pages.length < (pages ++ [lastPage]).length := by
    simp only [List.length_append, List.length_cons, List.length_nil]
    omega
  have hjk : 0 + pages.length ≤ (pages ++ [lastPage]).length := by
    simp only [List.length_append, List.length_cons, List.length_nil]
    omega
  have hadv := loop_advance base (stacParams b_box sd ed colls) (pages ++ [lastPage])
      pages.length 0 (extra + 1) [] [] [] (-9999) hjk (by norm_num) hcomb
  simp only [Nat.zero_add, List.nil_append] at hadv
  rw [pageUrl_zero] at hadv
  have hr2 : segR (pages ++ [lastPage]) 0 pages.length (-9999) ≠ 0 := by
    have := segR_ne_zero (pages ++ [lastPage]) pages.length 0 (-9999) (by norm_num)
    simp only [Nat.zero_add] at this hcomb
    exact this hcomb
  have hresp := mkServer_at base (pages ++ [lastPage]) pages.length
      (if pages.length + 1 = 1 then some (stacParams b_box sd ed colls) else none) hlen
  rw [getD_append_last] at hresp
  rw [hst] at hresp
  have hstep := loop_step_body (mkServer base (pages ++ [lastPage]))
      (stacParams b_box sd ed colls) extra (pageUrl base pages.length)
      (pages.length + 1)
      (segScenes (pages ++ [lastPage]) 0 pages.length)
      (segLog (pages ++ [lastPage]) 0 pages.length)
      (segReqs base (stacParams b_box sd ed colls) (pages ++ [lastPage]) 0 pages.length)
      (segR (pages ++ [lastPage]) 0 pages.length (-9999))
      ⟨9999, lastPage.returned,
       [J.jobj [("rel", J.jstr "next"), ("href", J.jstr (pageUrl base (pages.length + 1)))]],
       lastPage.features⟩
      (J.jstr (pageUrl base (pages.length + 1))) hr2 hresp (updateUrl_single_next _ _) hfeats
  simp only [search_stac]
  rw [hadv, hstep]
  dsimp only
  rw [hret, loop_stop_zero]
  rw [segScenes_append _ _ _ 0 (by omega), segLog_append _ _ _ 0 (by omega),
    segReqs_append]

theorem claim4_witness :
    pagesC4.all pageGoodB = true
  ∧ lastC4.status = 200 ∧ lastC4.returned = 0 ∧ lastC4.features.all featOkB = true
  ∧ search_stac (mkServer "https://s" (pagesC4 ++ [lastC4])) (0 + 1 + pagesC4.length)
        "https://s" "0,0,1,1" "2024-01-01" "2024-01-31" ["sentinel-2-l2a"]
      = .done
          (segScenes pagesC4 0 pagesC4.length ++ lastC4.features.map scOf)
          (segLog pagesC4 0 pagesC4.length ++ [LogEntry.message (pageMsg 9999 0)])
          (segReqs "https://s" (stacParams "0,0,1,1" "2024-01-01" "2024-01-31" ["sentinel-2-l2a"])
              pagesC4 0 pagesC4.length
            ++ [⟨pageUrl "https://s" pagesC4.length,
                 if pagesC4.length + 1 = 1 then
                   some (stacParams "0,0,1,1" "2024-01-01" "2024-01-31" ["sentinel-2-l2a"])
                 else none⟩])
  ∧ (segScenes pagesC4 0 pagesC4.length ++ lastC4.features.map scOf).length = 100 := by
  refine ⟨by decide, rfl, rfl, rfl, ?_, by decide⟩
  exact claim4_pagination "https://s" "0,0,1,1" "2024-01-01" "2024-01-31" ["sentinel-2-l2a"]
    pagesC4 lastC4 0 (by decide) rfl rfl rfl

/-- Claim C5: a non-200 response mid-pagination makes `search_stac` stop and
return (not raise) the partial result of the earlier successful pages,
logging the status through the host error channel. -/
theorem claim5_non200_partial (base b_box sd ed : String) (colls : List String)
    (pages : List PageSpec) (badPage : PageSpec) (extra : Nat)
    (hgood : pages.all pageGoodB = true)
    (hbad : badPage.status ≠ 200) :
    search_stac (mkServer base (pages ++ [badPage])) (extra + 1 + pages.length)
        base b_box sd ed colls
      = .done (segScenes pages 0 pages.length)
          (segLog pages 0 pages.length
            ++ [LogEntry.error ("Error in request: " ++ toString badPage.status)])
          (segReqs base (stacParams b_box sd ed colls) pages 0 pages.length
            ++ [⟨pageUrl base pages.length,
                 if pages.length + 1 = 1 then some (stacParams b_box sd ed colls) else none⟩])
    ∧ (search_stac (mkServer base (pages ++ [badPage])) (extra + 1 + pages.length)
        base b_box sd ed colls).isRaised = false := by
  have hcomb := range_all_of_all pages [badPage] hgood
  have hlen : pages.length < (pages ++ [badPage]).length := by
    simp only [List.length_append, List.length_cons, List.length_nil]
    omega
  have hjk : 0 + pages.length ≤ (pages ++ [badPage]).length := by
    simp only [List.length_append, List.length_cons, List.length_nil]
    omega
  have hadv := loop_advance base (stacParams b_box sd ed colls) (pages ++ [badPage])
      pages.length 0 (extra + 1) [] [] [] (-9999) hjk (by norm_num) hcomb
  simp only [Nat.zero_add, List.nil_append] at hadv
  rw [pageUrl_zero] at hadv
  have hr2 : segR (pages ++ [badPage]) 0 pages.length (-9999) ≠ 0 := by
    have := segR_ne_zero (pages ++ [badPage]) pages.length 0 (-9999) (by norm_num)
    simp only [Nat.zero_add] at this hcomb
    exact this hcomb
  have hresp := mkServer_at base (pages ++ [badPage]) pages.length
      (if pages.length + 1 = 1 then some (stacParams b_box sd ed colls) else none) hlen
  rw [getD_append_last] at hresp
  have hstop := loop_stop_non200 (mkServer base (pages ++ [badPage]))
      (stacParams b_box sd ed colls) extra (pageUrl base pages.length) (pages.length + 1)
      (segScenes (pages ++ [badPage]) 0 pages.length)
      (segLog (pages ++ [badPage]) 0 pages.length)
      (segReqs base (stacParams b_box sd ed colls) (pages ++ [badPage]) 0 pages.length)
      (segR (pages ++ [badPage]) 0 pages.length (-9999)) hr2
      (by rw [hresp]; exact hbad)
  rw [hresp] at hstop
  dsimp only at hstop
  constructor
  · simp only [search_stac]
    rw [hadv, hstop]
    rw [segScenes_append _ _ _ 0 (by omega), segLog_append _ _ _ 0 (by omega),
      segReqs_append]
  · simp only [search_stac]
    rw [hadv, hstop]
    rfl

theorem claim5_witness :
    pagesC4.all pageGoodB = true ∧ badC5.status ≠ 200
  ∧ search_stac (mkServer "https://s" (pagesC4 ++ [badC5])) (0 + 1 + pagesC4.length)
        "https://s" "0,0,1,1" "2024-01-01" "2024-01-31" ["sentinel-2-l2a"]
      = .done (segScenes pagesC4 0 pagesC4.length)
          (segLog pagesC4 0 pagesC4.length
            ++ [LogEntry.error ("Error in request: " ++ toString badC5.status)])
          (segReqs "https://s" (stacParams "0,0,1,1" "2024-01-01" "2024-01-31" ["sentinel-2-l2a"])
              pagesC4 0 pagesC4.length
            ++ [⟨pageUrl "https://s" pagesC4.length,
                 if pagesC4.length + 1 = 1 then
                   some (stacParams "0,0,1,1" "2024-01-01" "2024-01-31" ["sentinel-2-l2a"])
                 else none⟩])
  ∧ (search_stac (mkServer "https://s" (pagesC4 ++ [badC5])) (0 + 1 + pagesC4.length)
        "https://s" "0,0,1,1" "2024-01-01" "2024-01-31" ["sentinel-2-l2a"]).isRaised = false := by
  have h := claim5_non200_partial "https://s" "0,0,1,1" "2024-01-01" "2024-01-31"
    ["sentinel-2-l2a"] pagesC4 badC5 0 (by decide) (by decide)
  exact ⟨by decide, by decide, h.1, h.2⟩

/-- Claim C6: on a WGS84 polygon and buffer `b ≥ 0`, `buffer_extent` returns the
bounding-box string of the extent widened by exactly `b / 100000` degrees
on each side, and the closed five-point rectangle
(min,min) (min,max) (max,max) (max,min) (min,min) in EPSG 4326. -/
theorem claim6_buffer_extent (genv : GeoEnv) (P : ArcPolygon) (b : Rat)
    (hsr : P.spatialReference.factoryCode = 4326) (hb : 0 ≤ b) :
    buffer_extent genv P b
      = (ratStr (P.extent.XMin - b / 100000) ++ "," ++ ratStr (P.extent.YMin - b / 100000)
          ++ "," ++ ratStr (P.extent.XMax + b / 100000) ++ ","
          ++ ratStr (P.extent.YMax + b / 100000),
         ⟨[⟨P.extent.XMin - b / 100000, P.extent.YMin - b / 100000⟩,
           ⟨P.extent.XMin - b / 100000, P.extent.YMax + b / 100000⟩,
           ⟨P.extent.XMax + b / 100000, P.extent.YMax + b / 100000⟩,
           ⟨P.extent.XMax + b / 100000, P.extent.YMin - b / 100000⟩,
           ⟨P.extent.XMin - b / 100000, P.extent.YMin - b / 100000⟩], 4326⟩) := by
  simp [buffer_extent, hsr]

theorem claim6_witness :
    polyW.spatialReference.factoryCode = 4326 ∧ (0 : Rat) ≤ 250
  ∧ buffer_extent geo0 polyW 250
      = (ratStr (polyW.extent.XMin - 250 / 100000) ++ "," ++ ratStr (polyW.extent.YMin - 250 / 100000)
          ++ "," ++ ratStr (polyW.extent.XMax + 250 / 100000) ++ ","
          ++ ratStr (polyW.extent.YMax + 250 / 100000),
         ⟨[⟨polyW.extent.XMin - 250 / 100000, polyW.extent.YMin - 250 / 100000⟩,
           ⟨polyW.extent.XMin - 250 / 100000, polyW.extent.YMax + 250 / 100000⟩,
           ⟨polyW.extent.XMax + 250 / 100000, polyW.extent.YMax + 250 / 100000⟩,
           ⟨polyW.extent.XMax + 250 / 100000, polyW.extent.YMin - 250 / 100000⟩,
           ⟨polyW.extent.XMin - 250 / 100000, polyW.extent.YMin - 250 / 100000⟩], 4326⟩) :=
  ⟨rfl, by norm_num, claim6_buffer_extent geo0 polyW 250 rfl (by norm_num)⟩

/-- Claim C7: the file-name helper is a pure function of its arguments yielding
`prefix_sceneId_suffix` plus the original extension of the URL; in
particular the TCI/metadata names of the end-to-end scenario of the spec. -/
theorem claim7_fname_deterministic (pfx sid sfx url : String) (st : WState) :
    get_fname_from_url (J.jstr sid) (J.jstr url) pfx sfx st
      = (st, .ok (fnameOf pfx sid sfx (splitext url).2))
  ∧ get_fname_from_url (J.jstr "S2A_X") (J.jstr "https://e.com/x/TCI.tif") "AOI1" "TCI" st
      = (st, .ok "AOI1_S2A_X_TCI.tif")
  ∧ get_fname_from_url (J.jstr "S2A_X") (J.jstr "https://e.com/x/MTD.xml") "AOI1" "metadata" st
      = (st, .ok "AOI1_S2A_X_metadata.xml") :=
  ⟨rfl, congrArg (Prod.mk st) (congrArg Except.ok (by decide)),
        congrArg (Prod.mk st) (congrArg Except.ok (by decide))⟩

/-- Claim C8 (counterexample): the universal claim fails at `search_stac`,
whose except clause catches only `requests.exceptions.RequestException`: a
200 page whose body has no `context` key makes `int({})` raise a
`TypeError` that propagates out of the helper with an empty log — the
failure is neither caught nor logged through the host channel. -/
theorem claim8_counterexample :
    search_stac badCtxEnv 3 "https://s" "0,0,1,1" "2024-01-01" "2024-01-31" ["sentinel-2-l2a"]
      = .raised (.typeError "int") []
          [⟨"https://s", some (stacParams "0,0,1,1" "2024-01-01" "2024-01-31" ["sentinel-2-l2a"])⟩]
  ∧ (search_stac badCtxEnv 3 "https://s" "0,0,1,1" "2024-01-01" "2024-01-31"
      ["sentinel-2-l2a"]).logOf = []
  ∧ (search_stac badCtxEnv 3 "https://s" "0,0,1,1" "2024-01-01" "2024-01-31"
      ["sentinel-2-l2a"]).isRaised = true :=
  ⟨rfl, rfl, rfl⟩

/-- Claim C8 (amended): the retrieval helpers wrap their bodies in
catch-log-reraise: an exception in `download_img` (non-string URL),
`download_mtd` (request exception) or `get_fname_from_url` (null URL) is
logged through the host error channel and re-raised, and an exception
while processing one scene makes `get_data` log, re-raise and abort, so
the remaining scenes are never touched.  The `search_stac` wrapper,
however, catches only `requests.exceptions.RequestException`: a
request-class exception escaping its loop is logged and re-raised, while
any other exception propagates without the wrapper log line. -/
theorem claim8_catch_log_reraise :
    (∀ (env : Env) (sid : J) (kvs : List (String × J)) (lyr outf : String) (st : WState),
        fsExists st.fs outf = false →
        download_img env sid (J.jobj kvs) lyr outf st
          = (addErr st ("Error downloading image for " ++ sid.fmt ++ ": traceback"),
             .error (.attributeError "startswith")))
  ∧ (∀ (env : Env) (sid : J) (u outf : String) (st : WState) (e : PyErr),
        fsExists st.fs outf = false → env.httpGet u = .error e →
        download_mtd env sid (J.jstr u) outf st
          = (addErr { st with fs := fsWrite st.fs outf "", httpGets := st.httpGets ++ [u] }
               ("Error downloading metadata for " ++ sid.fmt ++ ": traceback"), .error e))
  ∧ (∀ (sid : J) (pfx sfx : String) (st : WState),
        get_fname_from_url sid J.null pfx sfx st
          = (addErr st ("Error getting filename for " ++ sid.fmt ++ ": traceback"),
             .error (.typeError "splitext expected str")))
  ∧ (∀ (env : Env) (item : SceneInfo) (rest : List SceneInfo) (pfx d t : String)
       (st st1 : WState) (e : PyErr),
        process_scene env item pfx d t st = (st1, .error e) →
        get_data env (item :: rest) pfx d t st
          = (addErr st1 "Error getting data: traceback", .error e))
  ∧ (∀ (env : SEnv) (fuel : Nat) (url b_box sd ed : String) (colls : List String)
       (m : String) (log : List LogEntry) (reqs : List SReq),
        search_stac_loop env (stacParams b_box sd ed colls) fuel (J.jstr url) 1 [] [] [] (-9999)
          = .raised (.requestError m) log reqs →
        search_stac env fuel url b_box sd ed colls
          = .raised (.requestError m)
              (log ++ [LogEntry.error "Error while searching STAC: traceback"]) reqs)
  ∧ (∀ (env : SEnv) (fuel : Nat) (url b_box sd ed : String) (colls : List String)
       (m : String) (log : List LogEntry) (reqs : List SReq),
        search_stac_loop env (stacParams b_box sd ed colls) fuel (J.jstr url) 1 [] [] [] (-9999)
          = .raised (.typeError m) log reqs →
        search_stac env fuel url b_box sd ed colls
          = .raised (.typeError m) log reqs) := by
  refine ⟨?_, ?_, ?_, ?_, ?_, ?_⟩
  · intro env sid kvs lyr outf st h
    simp [download_img, download_img_body, h]
  · intro env sid u outf st e h hget
    simp [download_mtd, download_mtd_body, h, hget, putFile]
  · intro sid pfx sfx st
    rfl
  · intro env item rest pfx d t st st1 e h
    simp [get_data, get_data_loop, h]
  · intro env fuel url b_box sd ed colls m log reqs h
    simp [search_stac, h]
  · intro env fuel url b_box sd ed colls m log reqs h
    simp [search_stac, h]

theorem claim8_witness :
    fsExists st0.fs "out/m.xml" = false
  ∧ envHF.httpGet "https://e.com/a/MTD.xml" = .error (.requestError "connection refused")
  ∧ download_mtd envHF (J.jstr "S") (J.jstr "https://e.com/a/MTD.xml") "out/m.xml" st0
      = (addErr { st0 with fs := fsWrite st0.fs "out/m.xml" "",
                           httpGets := st0.httpGets ++ ["https://e.com/a/MTD.xml"] }
           ("Error downloading metadata for " ++ (J.jstr "S").fmt ++ ": traceback"),
         .error (.requestError "connection refused"))
  ∧ search_stac_loop badCtxEnv (stacParams "0,0,1,1" "2024-01-01" "2024-01-31"
        ["sentinel-2-l2a"]) 3 (J.jstr "https://s") 1 [] [] [] (-9999)
      = .raised (.typeError "int") []
          [⟨"https://s", some (stacParams "0,0,1,1" "2024-01-01" "2024-01-31" ["sentinel-2-l2a"])⟩]
  ∧ search_stac badCtxEnv 3 "https://s" "0,0,1,1" "2024-01-01" "2024-01-31" ["sentinel-2-l2a"]
      = .raised (.typeError "int") []
          [⟨"https://s", some (stacParams "0,0,1,1" "2024-01-01" "2024-01-31" ["sentinel-2-l2a"])⟩] :=
  ⟨rfl, rfl,
   claim8_catch_log_reraise.2.1 envHF (J.jstr "S") "https://e.com/a/MTD.xml" "out/m.xml" st0
     (.requestError "connection refused") rfl rfl,
   rfl,
   claim8_catch_log_reraise.2.2.2.2.2 badCtxEnv 3 "https://s" "0,0,1,1" "2024-01-01"
     "2024-01-31" ["sentinel-2-l2a"] "int" []
     [⟨"https://s", some (stacParams "0,0,1,1" "2024-01-01" "2024-01-31" ["sentinel-2-l2a"])⟩]
     rfl⟩

/-- Claim C9: a non-200 metadata response still creates the output file (opened
for writing before the status check), leaves it empty, returns without
error; any later call with the same target then skips the download. -/
theorem claim9_mtd_non200 (env : Env) (sid : J) (u outf : String) (st : WState)
    (status : Nat) (text : String)
    (hne : fsExists st.fs outf = false)
    (hresp : env.httpGet u = .ok (status, text)) (hstatus : status ≠ 200) :
    download_mtd env sid (J.jstr u) outf st
      = ({ st with fs := fsWrite st.fs outf "",
                   httpGets := st.httpGets ++ [u] }, .ok ())
    ∧ fsExists (fsWrite st.fs outf "") outf = true
    ∧ (∀ st2 : WState, fsExists st2.fs outf = true →
        download_mtd env sid (J.jstr u) outf st2
          = (addMsg st2 ("metadata for " ++ sid.fmt ++ " exists in " ++ outf), .ok ())) := by
  refine ⟨?_, fsExists_fsWrite_self _ _ _, ?_⟩
  · simp [download_mtd, download_mtd_body, hne, hresp, hstatus, putFile]
  · intro st2 h2
    simp [download_mtd, download_mtd_body, h2]

theorem claim9_witness :
    fsExists st0.fs "out/m.xml" = false
  ∧ env404.httpGet "https://e.com/a/MTD.xml" = .ok (404, "not found")
  ∧ (404 : Nat) ≠ 200
  ∧ (download_mtd env404 (J.jstr "S") (J.jstr "https://e.com/a/MTD.xml") "out/m.xml" st0
      = ({ st0 with fs := fsWrite st0.fs "out/m.xml" "",
                    httpGets := st0.httpGets ++ ["https://e.com/a/MTD.xml"] }, .ok ())
    ∧ fsExists (fsWrite st0.fs "out/m.xml" "") "out/m.xml" = true
    ∧ (∀ st2 : WState, fsExists st2.fs "out/m.xml" = true →
        download_mtd env404 (J.jstr "S") (J.jstr "https://e.com/a/MTD.xml") "out/m.xml" st2
          = (addMsg st2 ("metadata for " ++ (J.jstr "S").fmt ++ " exists in " ++ "out/m.xml"),
             .ok ()))) :=
  ⟨rfl, rfl, by decide,
   claim9_mtd_non200 env404 (J.jstr "S") "https://e.com/a/MTD.xml" "out/m.xml" st0 404
     "not found" rfl rfl (by decide)⟩

/-- Claim C10: a 200 page with nonzero `returned` and no `next` link makes the
loop issue its next GET to the same URL without the query parameters; and
under a server all of whose responses are 200 pages with nonzero
`returned`, the loop never finishes within any fuel bound, so termination
rests entirely on the response sequence of the server. -/
theorem claim10_no_next_same_url_and_unbounded :
    (∀ (env : SEnv) (params0 : SParams) (fuel : Nat) (u : String) (rc : Nat)
       (scenes : List SceneInfo) (log : List LogEntry) (reqs : List SReq) (r : Int)
       (pb : PageBody),
       rc ≠ 0 → r ≠ 0 →
       env.server ⟨u, if rc = 1 then some params0 else none⟩ = ⟨200, pb.toJ⟩ →
       linksNoNextB pb.links = true → pb.returned ≠ 0 →
       pb.features.all featOkB = true →
       ∃ t, (search_stac_loop env params0 (fuel + 1 + 1) (J.jstr u) rc scenes log reqs r).reqsOf
         = reqs ++ [⟨u, if rc = 1 then some params0 else none⟩, ⟨u, none⟩] ++ t)
  ∧ (∀ (env : SEnv) (fuel : Nat) (base b_box sd ed : String) (colls : List String),
       goodSpinServer env →
       ∃ s l q, search_stac env fuel base b_box sd ed colls = .spin s l q) := by
  constructor
  · intro env params0 fuel u rc scenes log reqs r pb hrc hr hresp hnonext hret hfeats
    rw [loop_step_body env params0 (fuel + 1) u rc scenes log reqs r pb (J.jstr u)
          hr hresp (updateUrl_noNext pb.links hnonext (J.jstr u)) hfeats]
    obtain ⟨t, ht⟩ := loop_first_req env params0 fuel u (rc + 1)
      (scenes ++ pb.features.map scOf)
      (log ++ [LogEntry.message (pageMsg pb.matched pb.returned)])
      (reqs ++ [⟨u, if rc = 1 then some params0 else none⟩]) pb.returned hret
    rw [if_neg (by omega : ¬ rc + 1 = 1)] at ht
    refine ⟨t, ?_⟩
    rw [ht]
    simp
  · intro env fuel base b_box sd ed colls H
    obtain ⟨s, l, q, hs⟩ := loop_spin env (stacParams b_box sd ed colls) H fuel base 1
      [] [] [] (-9999) (by norm_num)
    refine ⟨s, l, q, ?_⟩
    simp only [search_stac]
    rw [hs]

theorem claim10_witness :
    (∃ t, (search_stac_loop constEnv constParams (1 + 1 + 1) (J.jstr "https://s") 1 [] [] []
        (-9999)).reqsOf
      = [] ++ [⟨"https://s", if 1 = 1 then some constParams else none⟩, ⟨"https://s", none⟩] ++ t)
  ∧ (∃ s l q, search_stac constEnv 5 "https://s" "0,0,1,1" "2024-01-01" "2024-01-31"
        ["sentinel-2-l2a"] = .spin s l q) := by
  constructor
  · exact claim10_no_next_same_url_and_unbounded.1 constEnv constParams 1 "https://s" 1 [] [] []
      (-9999) pbConst (by decide) (by decide) rfl rfl (by decide) rfl
  · exact claim10_no_next_same_url_and_unbounded.2 constEnv 5 "https://s" "0,0,1,1" "2024-01-01"
      "2024-01-31" ["sentinel-2-l2a"]
      (fun _ => ⟨pbConst, rfl, by decide, rfl, rfl⟩)

end S2DL
